import Mathlib

/-!
Verification of the thesun crawl+intercept endpoint-synthesis engine,
the host-side SSO login script, the credential-refresh interceptor and
the auth-strategy prober, as implemented in this repository (the
`buildEndpointMap` / `inferShape` / `generateToolName` TypeScript in the
sun-demo skill, `scripts/host-auth.mjs`, the `onUnauthorized` snippet in
the README, and Step 5 of `sun-demo/SKILL.md`).

JSON values are modelled by an inductive `Json`; JavaScript numbers that
occur in the relevant code are integers (HTTP statuses, ids), so `Int`
is used.  Object property order is kept, matching `Object.entries`.
-/

namespace SunSkills

/-- JSON values as produced by `JSON.parse` / `resp.json()`.  Field order
of objects is retained, as JavaScript's `Object.entries` does. -/
inductive Json where
  | null : Json
  | bool (b : Bool) : Json
  | num (n : Int) : Json
  | str (s : String) : Json
  | arr (xs : List Json) : Json
  | obj (kvs : List (String × Json)) : Json

/-- `inferShape` from the sun-demo skill:
`if (Array.isArray(obj)) return [obj.length > 0 ? inferShape(obj[0]) : 'unknown'];
 if (obj === null) return 'null';
 if (typeof obj !== 'object') return typeof obj;
 const shape = {}; for (const [k, v] of Object.entries(obj)) shape[k] = inferShape(v);
 return shape;`
`typeof` of a boolean / number / string is the corresponding type name. -/
def inferShape : Json → Json
  | .arr [] => .arr [.str "unknown"]
  | .arr (x :: _) => .arr [inferShape x]
  | .null => .str "null"
  | .bool _ => .str "boolean"
  | .num _ => .str "number"
  | .str _ => .str "string"
  | .obj kvs => .obj (inferShapeKVs kvs)
where
  /-- Recursion through the entry list of a JSON object. -/
  inferShapeKVs : List (String × Json) → List (String × Json)
  | [] => []
  | (k, v) :: rest => (k, inferShape v) :: inferShapeKVs rest

/-- JavaScript truthiness of a JSON value (`NaN` does not arise here). -/
def jsTruthy : Json → Bool
  | .null => false
  | .bool b => b
  | .num n => n != 0
  | .str s => s != ""
  | .arr _ => true
  | .obj _ => true

/-- `x?.f` for `x` an optional JSON value: `none` models `undefined`.
Property access on a non-object (or on `null`/`undefined`) yields
`undefined`; on an object it yields the field when present. -/
def jsGetField (x : Option Json) (f : String) : Option Json :=
  match x with
  | some (.obj kvs) => kvs.lookup f
  | _ => none

/-- JavaScript `x || y` over possibly-`undefined` JSON values. -/
def jsOrElse (x y : Option Json) : Option Json :=
  match x with
  | some j => if jsTruthy j then some j else y
  | none => y

/-- `Array.isArray` on a possibly-`undefined` JSON value. -/
def jsIsArray : Option Json → Bool
  | some (.arr _) => true
  | _ => false

/-! ## Path templating

`sample.path.replace(/\/[a-f0-9]{8,}|\/[0-9]+(?=\/|$)/gi, '/{id}')`:
a left-to-right scan; at each position the first alternative (a slash
followed by eight or more hex digits, case-insensitive, greedy) is tried,
then the second (a slash followed by digits, with a lookahead requiring a
slash or end of input); a match is replaced by `/{id}` and scanning
resumes after it. -/

/-- The character class `[0-9]`. -/
def isDigitCh (c : Char) : Bool := '0' ≤ c && c ≤ '9'

/-- The character class `[a-f0-9]` under the `i` flag. -/
def isHexDig (c : Char) : Bool :=
  ('0' ≤ c && c ≤ '9') || ('a' ≤ c && c ≤ 'f') || ('A' ≤ c && c ≤ 'F')

/-- The replacement text `/{id}` as characters. -/
def idTok : List Char := ['/', '\x7b', 'i', 'd', '\x7d']

/-- The lookahead `(?=\/|$)` of the second alternative. -/
def lookaheadOk (l : List Char) : Bool :=
  match l with
  | [] => true
  | c :: _ => c = '/'

/-- One regex-replace scan.  The fuel only bounds the number of scan
steps; each step consumes at least one character, so `length + 1` fuel
(as supplied by `parameterizePath`) is never exhausted. -/
def templGo : Nat → List Char → List Char
  | 0, _ => []
  | _ + 1, [] => []
  | fuel + 1, c :: cs =>
    if c = '/' then
      let h := cs.takeWhile isHexDig
      if 8 ≤ h.length then
        idTok ++ templGo fuel (cs.drop h.length)
      else
        let d := cs.takeWhile isDigitCh
        if d.length ≠ 0 && lookaheadOk (cs.drop d.length) then
          idTok ++ templGo fuel (cs.drop d.length)
        else
          c :: templGo fuel cs
    else
      c :: templGo fuel cs

/-- `path.replace(/\/[a-f0-9]{8,}|\/[0-9]+(?=\/|$)/gi, '/{id}')`. -/
def parameterizePath (s : String) : String :=
  (templGo (s.data.length + 1) s.data).asString

/-! ## Tool-name generation (`generateToolName`) -/

/-- JavaScript `split('/')` on the character list of a string. -/
def splitSlash : List Char → List (List Char)
  | [] => [[]]
  | '/' :: cs => [] :: splitSlash cs
  | c :: cs =>
    match splitSlash cs with
    | [] => [[c]]
    | s :: ss => (c :: s) :: ss

/-- The filter `s.match(/^(api|v[0-9]|rest|now)$/i)`. -/
def isGenericSeg (s : List Char) : Bool :=
  let t := s.map Char.toLower
  t = "api".data || t = "rest".data || t = "now".data ||
    (match t with
     | [v, d] => v = 'v' && d.isDigit
     | _ => false)

/-- `pathTemplate.split('/').filter(s => s && !s.startsWith('{') &&
!s.match(/^(api|v[0-9]|rest|now)$/i))`. -/
def toolNameSegs (tmpl : List Char) : List (List Char) :=
  (splitSlash tmpl).filter fun s =>
    !s.isEmpty && !(s.head? = some '\x7b') && !isGenericSeg s

/-- `generateToolName(method, pathTemplate)` from the sun-demo skill: a
verb from the method (the object-literal lookup falls back to
`method.toLowerCase()`), the last non-generic segment as resource
(`'resource'` when none), the resource singularized (`replace(/s$/,'')`)
when the template ends in `/{id}`, `list_` for other GET routes. -/
def generateToolName (method : String) (pathTemplate : String) : String :=
  let segments := toolNameSegs pathTemplate.data
  let resource :=
    match segments.getLast? with
    | some r => if r.isEmpty then "resource".data else r
    | none => "resource".data
  let verb :=
    match method with
    | "GET" => "get".data
    | "POST" => "create".data
    | "PUT" => "update".data
    | "PATCH" => "update".data
    | "DELETE" => "delete".data
    | m => m.toLower.data
  if idTok.isSuffixOf pathTemplate.data then
    let singular := if resource.getLast? = some 's' then resource.dropLast else resource
    (verb ++ '_' :: singular).asString
  else if method = "GET" then
    ("list".data ++ '_' :: resource).asString
  else
    (verb ++ '_' :: resource).asString

/-! ## The accumulated capture store and `buildEndpointMap` -/

/-- One observed request/response pair (the `CapturedEndpoint` interface).
An entry whose response never arrived keeps status `0`, which the
success filter rejects exactly as JavaScript's `undefined >= 200` does. -/
structure CapturedEndpoint where
  method : String
  path : String
  queryParams : List String
  requestBody : Option Json
  requestHeaders : List (String × String)
  responseStatus : Int
  responseBody : Option Json
  responseHeaders : List (String × String)
  contentType : String
  timestamp : Nat

/-- The synthesized `DiscoveredAPI` record. -/
structure DiscoveredAPI where
  method : String
  path : String
  pathTemplate : String
  queryParams : List String
  requestBodyShape : Option Json
  responseBodyShape : Option Json
  responseStatus : Int
  isListEndpoint : Bool
  isMutation : Bool
  sampleCount : Nat
  toolName : String

/-- `e.responseStatus >= 200 && e.responseStatus < 400`. -/
def isSuccessStatus (s : Int) : Bool := 200 ≤ s && s < 400

/-- `[...new Set(l)]`: deduplication keeping first occurrences, in
insertion order, as a JavaScript `Set` iterates. -/
def dedupFirstAux (seen : List String) : List String → List String
  | [] => []
  | x :: xs =>
    if x ∈ seen then dedupFirstAux seen xs
    else x :: dedupFirstAux (x :: seen) xs

/-- `[...new Set(entries.flatMap(e => e.queryParams))]`. -/
def dedupFirst (l : List String) : List String := dedupFirstAux [] l

/-- The body of the `for (const [key, entries] of captured)` loop in
`buildEndpointMap`: `none` when no entry has a success status (the route
is skipped), otherwise the `DiscoveredAPI` pushed for this store entry.
`sample` is `successEntries[0]`. -/
def synthesizeGroup (entries : List CapturedEndpoint) : Option DiscoveredAPI :=
  let successEntries := entries.filter fun e => isSuccessStatus e.responseStatus
  match successEntries with
  | [] => none
  | sample :: _ =>
    let pathTemplate := parameterizePath sample.path
    let responseShape :=
      match sample.responseBody with
      | some b => if jsTruthy b then some (inferShape b) else none
      | none => none
    let requestShape :=
      match sample.requestBody with
      | some b => if jsTruthy b then some (inferShape b) else none
      | none => none
    let allParams := dedupFirst (entries.flatMap fun e => e.queryParams)
    some {
      method := sample.method
      path := sample.path
      pathTemplate := pathTemplate
      queryParams := allParams
      requestBodyShape := requestShape
      responseBodyShape := responseShape
      responseStatus := sample.responseStatus
      isListEndpoint :=
        jsIsArray (jsOrElse (jsGetField sample.responseBody "results") sample.responseBody)
      isMutation := ["POST", "PUT", "PATCH", "DELETE"].contains sample.method
      sampleCount := successEntries.length
      toolName := generateToolName sample.method pathTemplate
    }

/-- `buildEndpointMap(captured)`: the capture store is a `Map` keyed by
`"METHOD /path"`, modelled as an association list in insertion order;
the loop appends at most one descriptor per store entry. -/
def buildEndpointMap (captured : List (String × List CapturedEndpoint)) : List DiscoveredAPI :=
  captured.filterMap fun kv => synthesizeGroup kv.2

/-! ## The host-side SSO login script (`scripts/host-auth.mjs`, `main`)

The browser is modelled as an oracle giving, for each loop iteration,
what the page would show at that point.  After the `for (let step = 0;
step < 25; step++)` loop — whether it broke out by landing or ran all 25
iterations — `main` unconditionally navigates back to the target if
needed, extracts CSRF material, captures cookies and writes the
`cookies.json` session artifact; the script contains no screenshot
call. -/

/-- What the page shows at one iteration of the SSO login loop. -/
structure PageObs where
  onTarget : Bool
  hasLoginForm : Bool
  emailFieldOpen : Bool
  pwFieldOpen : Bool
  totpFieldOpen : Bool
  consentVisible : Bool

/-- The at-most-one action an iteration performs. -/
inductive LoginAction where
  | fillEmail
  | fillPassword
  | fillTotp
  | clickConsent
  | waitOnly

/-- Guard priority of one loop iteration: email field, then password
field, then (only when a TOTP secret is configured) the TOTP field, then
a consent button, else a 5-second wait. -/
def stepAction (hasTotpSecret : Bool) (o : PageObs) : LoginAction :=
  if o.emailFieldOpen then .fillEmail
  else if o.pwFieldOpen then .fillPassword
  else if hasTotpSecret && o.totpFieldOpen then .fillTotp
  else if o.consentVisible then .clickConsent
  else .waitOnly

/-- `onTarget && hasLoginForm.length === 0`: the loop's break condition. -/
def landedObs (o : PageObs) : Bool := o.onTarget && !o.hasLoginForm

/-- The SSO login loop: at iteration `step` it breaks when landed, else
performs one action; `remaining` counts iterations left in the budget.
Returns whether the loop ended by landing. -/
def loginLoopAux (obs : Nat → PageObs) : Nat → Nat → Bool
  | 0, _ => false
  | remaining + 1, step =>
    if landedObs (obs step) then true
    else loginLoopAux obs remaining (step + 1)

/-- The actions the loop performs before landing or budget exhaustion. -/
def loginLoopTrace (hasTotpSecret : Bool) (obs : Nat → PageObs) : Nat → Nat → List LoginAction
  | 0, _ => []
  | remaining + 1, step =>
    if landedObs (obs step) then []
    else stepAction hasTotpSecret (obs step) :: loginLoopTrace hasTotpSecret obs remaining (step + 1)

/-- `for (let step = 0; step < 25; step++)`. -/
def ssoLoginLoopLanded (obs : Nat → PageObs) : Bool := loginLoopAux obs 25 0

/-- The artifacts `main` leaves behind. -/
structure HostAuthResult where
  landed : Bool
  wroteCookieFile : Bool
  screenshots : Nat

/-- `main` of `host-auth.mjs`, after credentials resolved: run the login
loop, then (unconditionally) capture cookies and write the session
artifact.  No code path captures a screenshot. -/
def hostAuthMain (obs : Nat → PageObs) : HostAuthResult :=
  let l := ssoLoginLoopLanded obs
  { landed := l
    wroteCookieFile := true
    screenshots := 0 }

/-! ## The reauth interceptor (`onUnauthorized` in the README) -/

/-- The fresh credentials read from `COOKIE_FILE`. -/
structure FreshCreds where
  headers : List (String × String)

/-- `fresh.headers.Cookie`, the input of the fingerprint hash. -/
def cookieOf (c : FreshCreds) : String := (c.headers.lookup "Cookie").getD ""

/-- The mutable fields of the auth manager that `onUnauthorized` uses. -/
structure AuthManagerState where
  lastAttempt : Int
  lastHash : String
  headers : List (String × String)

/-- `onUnauthorized` from the README:
`if (Date.now() - this.lastAttempt < 60_000) return false;
 this.lastAttempt = Date.now();
 const fresh = JSON.parse(readFileSync(COOKIE_FILE, "utf-8"));
 const hash = createHash("sha256").update(fresh.headers.Cookie).digest("hex");
 if (hash === this.lastHash) return false;
 this.lastHash = hash; this.headers = fresh.headers; return true;`
The SHA-256 fingerprint is abstracted as a function argument `hash`;
`now` stands for `Date.now()` and `fresh` for the file contents. -/
def onUnauthorized (hash : String → String) (now : Int) (fresh : FreshCreds)
    (st : AuthManagerState) : Bool × AuthManagerState :=
  if now - st.lastAttempt < 60000 then
    (false, st)
  else
    let st1 : AuthManagerState := { st with lastAttempt := now }
    let h := hash (cookieOf fresh)
    if h = st1.lastHash then
      (false, st1)
    else
      (true, { st1 with lastHash := h, headers := fresh.headers })

/-- Whether a call of `onUnauthorized` at time `now` gets past the
cooldown check, i.e. reads the credential file at all (the only
code path that touches the login machinery's output). -/
def refreshAttempted (st : AuthManagerState) (now : Int) : Bool :=
  !(now - st.lastAttempt < 60000 : Bool)

/-- A sequence of `onUnauthorized` calls at the given times, counting how
many of them got past the cooldown (i.e. read fresh credentials). -/
def runRefreshSeq (hash : String → String) (freshAt : Int → FreshCreds)
    (st : AuthManagerState) (times : List Int) : AuthManagerState × Nat :=
  times.foldl
    (fun acc t =>
      let attempted := refreshAttempted acc.1 t
      let r := onUnauthorized hash t (freshAt t) acc.1
      (r.2, acc.2 + if attempted then 1 else 0))
    (st, 0)

/-! ## The auth strategy prober (sun-demo SKILL.md, Step 5) -/

/-- Which header set Step 5 adopts. -/
inductive HeaderChoice where
  | cookieHeaders
  | cookieWithBearer
  | bearerOnly
deriving DecidableEq

/-- `resp.status < 400 || resp.status === 404`. -/
def probeQualifies (status : Int) : Bool := status < 400 || status = 404

/-- Step 5 of the proxied pipeline.  The probe `fetch`es are external;
their statuses are inputs: `resp1` for the cookie/CSRF/Origin candidate
and, when a bearer token was captured, `(resp2, resp3)` for the
cookie-plus-bearer and bearer-only candidates.  Returns the adopted
header set and the `authStrategy` string. -/
def authStrategyTest (hasCsrf : Bool) (resp1 : Int) (bearer : Option (Int × Int)) :
    HeaderChoice × String :=
  if probeQualifies resp1 then
    (.cookieHeaders, if hasCsrf then "cookie+csrf" else "cookie-only")
  else
    match bearer with
    | some (resp2, resp3) =>
      if probeQualifies resp2 then (.cookieWithBearer, "cookie+bearer")
      else if probeQualifies resp3 then (.bearerOnly, "bearer-only")
      else (.cookieHeaders, "cookie-only-unverified")
    | none => (.cookieHeaders, "cookie-only")

/-- The spec-side selection rule of the claim: adopt the first candidate
in order whose probe qualifies; when none qualifies, fall back to the
cookie candidate, unverified (`false` in the second component). -/
def firstQualifyingCandidate (s1 s2 s3 : Int) : HeaderChoice × Bool :=
  if probeQualifies s1 then (.cookieHeaders, true)
  else if probeQualifies s2 then (.cookieWithBearer, true)
  else if probeQualifies s3 then (.bearerOnly, true)
  else (.cookieHeaders, false)

/-! ## Segment-level view of path templating

Matches of the replace-regex always begin at a `/`, so on a path built
from slash-free segments the scan processes each segment independently.
`templSeg` gives one segment's contribution; the decomposition is proved
below (`templGo_joinPath`). -/

/-- Build a path from slash-free segments: `joinPath [a, b] = "/a/b"`. -/
def joinPath (segs : List (List Char)) : List Char :=
  segs.foldr (fun s acc => '/' :: (s ++ acc)) []

/-- The contribution of one slash-free segment to the template: the hex
alternative replaces the maximal hex prefix when it has eight or more
characters (the remainder of the segment is copied verbatim); the
numeric alternative fires only when the digit run reaches the end of the
segment (otherwise its lookahead fails); else the segment is copied. -/
def templSeg (s : List Char) : List Char :=
  let h := s.takeWhile isHexDig
  if 8 ≤ h.length then idTok ++ s.drop h.length
  else if !s.isEmpty && s.takeWhile isDigitCh = s then idTok
  else '/' :: s

/-- A segment the regex treats as an opaque identifier: purely numeric,
or hexadecimal of length at least eight. -/
def segIdLike (s : List Char) : Bool :=
  (!s.isEmpty && s.all isDigitCh) || (8 ≤ s.length && s.all isHexDig)

/-- Relation between paired segments of two paths that "differ only in
numeric or opaque-token segments": equal, or opaque on both sides;
segments are slash-free. -/
def segMatches (a b : List Char) : Prop :=
  (∀ c ∈ a, c ≠ '/') ∧ (∀ c ∈ b, c ≠ '/') ∧
    (a = b ∨ (segIdLike a = true ∧ segIdLike b = true))

/-! ## Concrete capture stores used to settle the claims -/

/-- An entry skeleton; concrete stores override the relevant fields. -/
def baseEntry : CapturedEndpoint where
  method := "GET"
  path := "/"
  queryParams := []
  requestBody := none
  requestHeaders := []
  responseStatus := 0
  responseBody := none
  responseHeaders := []
  contentType := ""
  timestamp := 0

/-- `GET /api/v1/items` returning `{items:[{id:1,name:"a"}]}`, 200. -/
def itemsListEntry : CapturedEndpoint :=
  { baseEntry with
    path := "/api/v1/items"
    responseStatus := 200
    responseBody := some (.obj [("items", .arr [.obj [("id", .num 1), ("name", .str "a")]])])
    contentType := "application/json" }

/-- `GET /api/v1/items/42` returning `{id:42,name:"a"}`, 200. -/
def itemDetailEntry : CapturedEndpoint :=
  { baseEntry with
    path := "/api/v1/items/42"
    responseStatus := 200
    responseBody := some (.obj [("id", .num 42), ("name", .str "a")])
    contentType := "application/json" }

/-- The capture store of end-to-end scenario 1. -/
def scenario1Store : List (String × List CapturedEndpoint) :=
  [("GET /api/v1/items", [itemsListEntry]), ("GET /api/v1/items/42", [itemDetailEntry])]

/-- `POST /api/v1/items` with request body `{"name":"x"}`, status 201. -/
def postItemEntry : CapturedEndpoint :=
  { baseEntry with
    method := "POST"
    path := "/api/v1/items"
    requestBody := some (.obj [("name", .str "x")])
    responseStatus := 201
    contentType := "application/json" }

/-- The capture store of end-to-end scenario 2. -/
def scenario2Store : List (String × List CapturedEndpoint) :=
  [("POST /api/v1/items", [postItemEntry])]

/-- Two successful GET calls on the same logical route with different
concrete identifiers, hence two distinct raw route keys. -/
def dupTemplateStore : List (String × List CapturedEndpoint) :=
  [("GET /items/42", [{ baseEntry with path := "/items/42", responseStatus := 200 }]),
   ("GET /items/5f3a2b91", [{ baseEntry with path := "/items/5f3a2b91", responseStatus := 200 }])]

/-- A successful sample with query parameter `a` and a failing (500)
sample with query parameter `b` on the same route. -/
def mixedEntries : List CapturedEndpoint :=
  [{ baseEntry with path := "/search", responseStatus := 200, queryParams := ["a"] },
   { baseEntry with path := "/search", responseStatus := 500, queryParams := ["b"] }]

/-- The capture store holding `mixedEntries` under one route key. -/
def mixedStatusStore : List (String × List CapturedEndpoint) :=
  [("GET /search", mixedEntries)]

/-- The descriptor that `buildEndpointMap` emits for `mixedStatusStore`. -/
def mixedStoreAPI : DiscoveredAPI where
  method := "GET"
  path := "/search"
  pathTemplate := "/search"
  queryParams := ["a", "b"]
  requestBodyShape := none
  responseBodyShape := none
  responseStatus := 200
  isListEndpoint := false
  isMutation := false
  sampleCount := 1
  toolName := "list_search"

/-- A page on which the login loop can never land: off the target host
with a visible login form and no fillable field or consent control. -/
def stuckObs : Nat → PageObs := fun _ =>
  { onTarget := false
    hasLoginForm := true
    emailFieldOpen := false
    pwFieldOpen := false
    totpFieldOpen := false
    consentVisible := false }

/-! ## Theorems -/

/-- Claim C2, counterexample: in end-to-end scenario 1 the descriptor
named `list_items` has `isListEndpoint = false`, because the code only
inspects the top-level `results` field (`responseBody?.results ||
responseBody`) and the body `{items:[...]}` is an object whose `results`
field is absent. -/
theorem c2_scenario1_counterexample :
    ¬ (∀ a ∈ buildEndpointMap scenario1Store,
        a.toolName = "list_items" → a.isListEndpoint = true) := by
  decide

/-- Claim C2, amended: scenario 1 produces exactly two descriptors,
named `list_items` and `get_item`, but `isListEndpoint` is `false` for
both: it is true only when the response body is itself a list or its
top-level `results` field holds a (truthy) list — `items` is not one of
the fields the code checks. -/
theorem c2_scenario1_amended :
    (buildEndpointMap scenario1Store).map (fun a => (a.toolName, a.isListEndpoint)) =
      [("list_items", false), ("get_item", false)] := by
  decide

/-- Claim C3, counterexample: the `POST /api/v1/items` scenario yields no
descriptor named `create_item`; `generateToolName` singularizes only
templates ending in `/{id}`, so a collection-route POST keeps the plural
resource segment. -/
theorem c3_scenario2_counterexample :
    ¬ ∃ a ∈ buildEndpointMap scenario2Store, a.toolName = "create_item" := by
  decide

/-- Claim C3, amended: the scenario's single descriptor has
`isMutation = true`, `requestBodyShape = {name: "string"}` and
`toolName = "create_items"` (plural, since the template does not end in
the `/{id}` placeholder). -/
theorem c3_scenario2_amended :
    (buildEndpointMap scenario2Store).map
        (fun a => (a.toolName, a.isMutation, a.requestBodyShape)) =
      [("create_items", true, some (.obj [("name", .str "string")]))] := by
  rfl

/-- Claim C1, counterexample: `buildEndpointMap` groups by raw route key,
not by (method, path-template); two successful calls on `/items/42` and
`/items/5f3a2b91` produce two descriptors both carrying the pair
`(GET, /items/\x7bid\x7d)`, so the claimed catalog invariant fails. -/
theorem c1_duplicate_pair_counterexample :
    (buildEndpointMap dupTemplateStore).map (fun a => (a.method, a.pathTemplate)) =
        [("GET", "/items/\x7bid\x7d"), ("GET", "/items/\x7bid\x7d")] ∧
      ¬ ((buildEndpointMap dupTemplateStore).map
          (fun a => (a.method, a.pathTemplate))).Nodup := by
  decide

/-- Claim C7, counterexample: with one 200 sample carrying query
parameter `a` and one 500 sample carrying `b` on the same route, the
emitted descriptor's `queryParams` contains `b`, which occurs in no
contributing (status in [200,400)) sample: the code unions over
`entries`, not over `successEntries`. -/
theorem c7_union_counterexample :
    ¬ (∀ a ∈ buildEndpointMap mixedStatusStore, ∀ p ∈ a.queryParams,
        ∃ e ∈ mixedEntries.filter (fun e => isSuccessStatus e.responseStatus),
          p ∈ e.queryParams) := by
  decide

/-- Claim C4, counterexample: when every iteration of the SSO login loop
observes a non-landed page, `host-auth.mjs` still writes the
`cookies.json` session artifact and captures no screenshot — the exact
opposite of the claimed failure behaviour. -/
theorem c4_budget_exhausted_counterexample :
    (hostAuthMain stuckObs).landed = false ∧
      (hostAuthMain stuckObs).wroteCookieFile = true ∧
      (hostAuthMain stuckObs).screenshots = 0 := by
  decide

/-- Claim C4, amended: exhausting the 25-step budget without landing does
not abort the run: `main` proceeds past the loop, captures cookies and
writes the session artifact unconditionally, and no code path captures a
screenshot. -/
theorem c4_budget_exhausted_amended (obs : Nat → PageObs)
    (_h : ssoLoginLoopLanded obs = false) :
    (hostAuthMain obs).wroteCookieFile = true ∧ (hostAuthMain obs).screenshots = 0 :=
  ⟨rfl, rfl⟩

/-- Witness for `c4_budget_exhausted_amended` at the stuck page. -/
theorem c4_budget_exhausted_amended_witness :
    ssoLoginLoopLanded stuckObs = false ∧
      (hostAuthMain stuckObs).wroteCookieFile = true ∧
      (hostAuthMain stuckObs).screenshots = 0 :=
  ⟨by decide, c4_budget_exhausted_amended stuckObs (by decide)⟩

/-- Unfolding `synthesizeGroup` when no entry has a success status. -/
theorem synthesizeGroup_eq_none (entries : List CapturedEndpoint)
    (h : entries.filter (fun e => isSuccessStatus e.responseStatus) = []) :
    synthesizeGroup entries = none := by
  unfold synthesizeGroup
  rw [h]

/-- Unfolding `synthesizeGroup` when the success filter is non-empty. -/
theorem synthesizeGroup_eq_some (entries : List CapturedEndpoint)
    (sample : CapturedEndpoint) (rest : List CapturedEndpoint)
    (h : entries.filter (fun e => isSuccessStatus e.responseStatus) = sample :: rest) :
    synthesizeGroup entries = some
      { method := sample.method
        path := sample.path
        pathTemplate := parameterizePath sample.path
        queryParams := dedupFirst (entries.flatMap fun e => e.queryParams)
        requestBodyShape :=
          match sample.requestBody with
          | some b => if jsTruthy b then some (inferShape b) else none
          | none => none
        responseBodyShape :=
          match sample.responseBody with
          | some b => if jsTruthy b then some (inferShape b) else none
          | none => none
        responseStatus := sample.responseStatus
        isListEndpoint :=
          jsIsArray (jsOrElse (jsGetField sample.responseBody "results") sample.responseBody)
        isMutation := ["POST", "PUT", "PATCH", "DELETE"].contains sample.method
        sampleCount := (sample :: rest).length
        toolName := generateToolName sample.method (parameterizePath sample.path) } := by
  unfold synthesizeGroup
  rw [h]

/-- A store entry yields a descriptor exactly when it has a sample with
a success status. -/
theorem synthesizeGroup_isSome (entries : List CapturedEndpoint) :
    (synthesizeGroup entries).isSome =
      entries.any fun e => isSuccessStatus e.responseStatus := by
  cases h : entries.filter (fun e => isSuccessStatus e.responseStatus) with
  | nil =>
    rw [synthesizeGroup_eq_none entries h]
    simp only [Option.isSome_none]
    symm
    rw [List.any_eq_false]
    intro e he
    have h' := List.filter_eq_nil_iff.mp h e he
    simpa using h'
  | cons s t =>
    rw [synthesizeGroup_eq_some entries s t h]
    simp only [Option.isSome_some]
    symm
    rw [List.any_eq_true]
    have hs : s ∈ entries.filter (fun e => isSuccessStatus e.responseStatus) := by
      rw [h]; exact List.mem_cons_self s t
    rcases List.mem_filter.mp hs with ⟨he, hp⟩
    exact ⟨s, he, hp⟩

/-- Claim C1, amended: the synthesizer groups by raw route key, not by
(method, path-template): the catalog holds exactly one descriptor per
stored route key that has at least one success-status sample, and (per
the counterexample) two keys whose raw paths collapse to one template
yield two descriptors with the same (method, path-template) pair. -/
theorem c1_route_key_grouping (captured : List (String × List CapturedEndpoint)) :
    (buildEndpointMap captured).length =
      (captured.filter fun kv =>
        kv.2.any fun e => isSuccessStatus e.responseStatus).length := by
  induction captured with
  | nil => rfl
  | cons kv rest ih =>
    by_cases h : kv.2.any (fun e => isSuccessStatus e.responseStatus) = true
    · obtain ⟨a, ha⟩ : ∃ a, synthesizeGroup kv.2 = some a := by
        rw [← Option.isSome_iff_exists, synthesizeGroup_isSome]; exact h
      simp [buildEndpointMap, List.filterMap_cons, ha, List.filter_cons, h] at ih ⊢
      exact ih
    · have ha : synthesizeGroup kv.2 = none := by
        rw [← Option.not_isSome_iff_eq_none, synthesizeGroup_isSome]
        simpa using h
      simp [buildEndpointMap, List.filterMap_cons, ha, List.filter_cons, h] at ih ⊢
      exact ih

/-- Membership in the `Set`-based deduplication. -/
theorem mem_dedupFirstAux (p : String) :
    ∀ (l seen : List String), p ∈ dedupFirstAux seen l ↔ p ∈ l ∧ p ∉ seen := by
  intro l
  induction l with
  | nil => intro seen; simp [dedupFirstAux]
  | cons x xs ih =>
    intro seen
    by_cases hx : x ∈ seen
    · rw [dedupFirstAux, if_pos hx, ih]
      constructor
      · rintro ⟨h1, h2⟩; exact ⟨List.mem_cons_of_mem _ h1, h2⟩
      · rintro ⟨h1, h2⟩
        rcases List.mem_cons.mp h1 with rfl | h1
        · exact absurd hx h2
        · exact ⟨h1, h2⟩
    · rw [dedupFirstAux, if_neg hx, List.mem_cons, ih]
      constructor
      · rintro (rfl | ⟨h1, h2⟩)
        · exact ⟨List.mem_cons_self _ _, hx⟩
        · refine ⟨List.mem_cons_of_mem _ h1, fun hp => h2 (List.mem_cons_of_mem _ hp)⟩
      · rintro ⟨h1, h2⟩
        by_cases hpx : p = x
        · exact Or.inl hpx
        · refine Or.inr ⟨?_, fun hp => ?_⟩
          · rcases List.mem_cons.mp h1 with h' | h'
            · exact absurd h' hpx
            · exact h'
          · rcases List.mem_cons.mp hp with h' | h'
            · exact hpx h'
            · exact h2 h'

/-- `[...new Set(l)]` has the same members as `l`. -/
theorem mem_dedupFirst (p : String) (l : List String) : p ∈ dedupFirst l ↔ p ∈ l := by
  rw [dedupFirst, mem_dedupFirstAux]
  simp

/-- Claim C7, amended: for every emitted descriptor, `queryParams` is the
union of the query-parameter name sets across **all** samples stored
under the descriptor's route key — failing samples included — not only
across the contributing (success-status) samples. -/
theorem c7_query_params_union (captured : List (String × List CapturedEndpoint))
    (a : DiscoveredAPI) (ha : a ∈ buildEndpointMap captured) :
    ∃ kv ∈ captured, synthesizeGroup kv.2 = some a ∧
      ∀ p, p ∈ a.queryParams ↔ ∃ e ∈ kv.2, p ∈ e.queryParams := by
  unfold buildEndpointMap at ha
  rcases List.mem_filterMap.mp ha with ⟨kv, hkv, hsyn⟩
  refine ⟨kv, hkv, hsyn, ?_⟩
  intro p
  have hq : a.queryParams = dedupFirst (kv.2.flatMap fun e => e.queryParams) := by
    cases h : kv.2.filter (fun e => isSuccessStatus e.responseStatus) with
    | nil => rw [synthesizeGroup_eq_none _ h] at hsyn; cases hsyn
    | cons s t =>
      rw [synthesizeGroup_eq_some _ s t h] at hsyn
      cases hsyn
      rfl
  rw [hq, mem_dedupFirst, List.mem_flatMap]

/-- Witness for `c7_query_params_union` at the mixed-status store. -/
theorem c7_query_params_union_witness :
    mixedStoreAPI ∈ buildEndpointMap mixedStatusStore ∧
      ∃ kv ∈ mixedStatusStore, synthesizeGroup kv.2 = some mixedStoreAPI ∧
        ∀ p, p ∈ mixedStoreAPI.queryParams ↔ ∃ e ∈ kv.2, p ∈ e.queryParams :=
  ⟨List.Mem.head _, c7_query_params_union mixedStatusStore mixedStoreAPI (List.Mem.head _)⟩

/-- Claim C10: `inferShape` on a JSON array depends only on the first
element — a non-empty array's shape is the one-element list holding the
first element's shape (so later elements are irrelevant), and the empty
array's shape is `['unknown']`. -/
theorem c10_inferShape_first_element (x : Json) (xs ys : List Json) :
    inferShape (.arr (x :: xs)) = .arr [inferShape x] ∧
      inferShape (.arr (x :: xs)) = inferShape (.arr (x :: ys)) ∧
      inferShape (.arr ([] : List Json)) = .arr [.str "unknown"] :=
  ⟨rfl, rfl, rfl⟩

/-- Claim C9: with all three candidates available (a bearer token was
captured), Step 5 adopts the first candidate whose probe status is below
400 or exactly 404, and exactly when none qualifies it falls back to the
cookie candidate with the `cookie-only-unverified` flag. -/
theorem c9_prober_first_qualifying (hasCsrf : Bool) (s1 s2 s3 : Int) :
    (authStrategyTest hasCsrf s1 (some (s2, s3))).1 =
        (firstQualifyingCandidate s1 s2 s3).1 ∧
      ((authStrategyTest hasCsrf s1 (some (s2, s3))).2 = "cookie-only-unverified" ↔
        (firstQualifyingCandidate s1 s2 s3).2 = false) := by
  unfold authStrategyTest firstQualifyingCandidate
  by_cases h1 : probeQualifies s1 <;> by_cases h2 : probeQualifies s2 <;>
    by_cases h3 : probeQualifies s3 <;> cases hasCsrf <;> simp [h1, h2, h3]

/-- Claim C5: once past the cooldown, a refresh whose fresh fingerprint
equals the stored one reports `false` and leaves the held headers and
fingerprint untouched; and (unconditionally) the headers are replaced
only when the fresh fingerprint differs from the stored one. -/
theorem c5_unchanged_fingerprint (hash : String → String) (now : Int)
    (fresh : FreshCreds) (st : AuthManagerState) :
    (refreshAttempted st now = true → hash (cookieOf fresh) = st.lastHash →
        (onUnauthorized hash now fresh st).1 = false ∧
          (onUnauthorized hash now fresh st).2.headers = st.headers ∧
          (onUnauthorized hash now fresh st).2.lastHash = st.lastHash) ∧
      ((onUnauthorized hash now fresh st).2.headers ≠ st.headers →
        hash (cookieOf fresh) ≠ st.lastHash) := by
  unfold onUnauthorized refreshAttempted
  by_cases hcool : now - st.lastAttempt < 60000 <;>
    by_cases heq : hash (cookieOf fresh) = st.lastHash <;>
      simp [hcool, heq]

/-- Witness for `c5_unchanged_fingerprint`: identity hash, stored
fingerprint `"c0"`, fresh cookie `"c0"`, cooldown long expired. -/
theorem c5_unchanged_fingerprint_witness :
    refreshAttempted ⟨0, "c0", [("Cookie", "old")]⟩ 70000 = true ∧
      id (cookieOf ⟨[("Cookie", "c0")]⟩) = "c0" ∧
      ((onUnauthorized id 70000 ⟨[("Cookie", "c0")]⟩ ⟨0, "c0", [("Cookie", "old")]⟩).1 = false ∧
        (onUnauthorized id 70000 ⟨[("Cookie", "c0")]⟩ ⟨0, "c0", [("Cookie", "old")]⟩).2.headers =
          [("Cookie", "old")] ∧
        (onUnauthorized id 70000 ⟨[("Cookie", "c0")]⟩ ⟨0, "c0", [("Cookie", "old")]⟩).2.lastHash =
          "c0") :=
  ⟨by decide, by decide,
    (c5_unchanged_fingerprint id 70000 ⟨[("Cookie", "c0")]⟩ ⟨0, "c0", [("Cookie", "old")]⟩).1
      (by decide) (by decide)⟩

/-- `[0-9]` is contained in `[a-f0-9]`. -/
theorem isHexDig_of_isDigitCh (c : Char) (h : isDigitCh c = true) : isHexDig c = true := by
  unfold isDigitCh at h
  unfold isHexDig
  rw [h]
  rfl

/-- `takeWhile` over an append whose right part contributes nothing. -/
theorem takeWhile_append_eq_left (p : Char → Bool) (s rest : List Char)
    (h : rest.takeWhile p = []) :
    (s ++ rest).takeWhile p = s.takeWhile p := by
  rw [List.takeWhile_append]
  split
  · next hlen =>
    rw [h, List.append_nil]
    exact ((List.takeWhile_prefix p).eq_of_length hlen).symm
  · rfl

/-- A list that is empty or starts with `/` has an empty `takeWhile` for
any predicate rejecting `/`. -/
theorem headSlash_takeWhile_nil (p : Char → Bool) (hp : p '/' = false) (rest : List Char)
    (h : rest = [] ∨ ∃ t, rest = '/' :: t) : rest.takeWhile p = [] := by
  rcases h with rfl | ⟨t, rfl⟩
  · rfl
  · simp [List.takeWhile_cons, hp]

/-- The scan result does not depend on the fuel, as long as the fuel
covers the input length (each step consumes at least one character). -/
theorem templGo_congr : ∀ (f1 f2 : Nat) (l : List Char),
    l.length ≤ f1 → l.length ≤ f2 → templGo f1 l = templGo f2 l := by
  intro f1
  induction f1 with
  | zero =>
    intro f2 l h1 _
    have hl : l = [] := List.eq_nil_of_length_eq_zero (Nat.le_zero.mp h1)
    subst hl
    cases f2 <;> rfl
  | succ f ih =>
    intro f2 l h1 h2
    cases l with
    | nil => cases f2 <;> rfl
    | cons c cs =>
      cases f2 with
      | zero => simp at h2
      | succ f2' =>
        have hcs : cs.length ≤ f := by simp at h1; omega
        have hcs2 : cs.length ≤ f2' := by simp at h2; omega
        have hdrop : ∀ k : Nat, (cs.drop k).length ≤ cs.length := fun k => by
          rw [List.length_drop]; omega
        simp only [templGo]
        split_ifs
        · rw [ih f2' _ (le_trans (hdrop _) hcs) (le_trans (hdrop _) hcs2)]
        · rw [ih f2' _ (le_trans (hdrop _) hcs) (le_trans (hdrop _) hcs2)]
        · rw [ih f2' _ hcs hcs2]
        · rw [ih f2' _ hcs hcs2]

/-- Scanning a slash-free run copies it verbatim: no match can begin
inside it, since every match starts at a `/`. -/
theorem templGo_emit (l : List Char) :
    ∀ (fuel : Nat) (tail : List Char), (∀ c ∈ l, c ≠ '/') →
      (l ++ tail).length ≤ fuel →
      templGo fuel (l ++ tail) = l ++ templGo fuel tail := by
  induction l with
  | nil => intro fuel tail _ _; rfl
  | cons c l' ih =>
    intro fuel tail hl hfuel
    cases fuel with
    | zero => simp at hfuel
    | succ f =>
      have hc : ¬ (c = '/') := hl c (List.mem_cons_self _ _)
      show templGo (f + 1) (c :: (l' ++ tail)) = (c :: l') ++ templGo (f + 1) tail
      simp only [templGo]
      rw [if_neg hc]
      have hlen : (l' ++ tail).length ≤ f := by simp at hfuel ⊢; omega
      rw [ih f tail (fun x hx => hl x (List.mem_cons_of_mem _ hx)) hlen]
      rw [templGo_congr f (f + 1) tail
        (le_trans (by simp) hlen) (le_trans (le_trans (by simp) hlen) (Nat.le_succ f))]
      rfl

/-- Decomposition: on `/seg` followed by the rest of the path (empty or
starting with `/`), the scan contributes `templSeg seg` and continues
with the rest. -/
theorem templGo_seg (s rest : List Char) (fuel : Nat)
    (hs : ∀ c ∈ s, c ≠ '/')
    (hrest : rest = [] ∨ ∃ t, rest = '/' :: t)
    (hfuel : ('/' :: (s ++ rest)).length ≤ fuel) :
    templGo fuel ('/' :: (s ++ rest)) = templSeg s ++ templGo fuel rest := by
  cases fuel with
  | zero => simp at hfuel
  | succ f =>
    have htwHex : (s ++ rest).takeWhile isHexDig = s.takeWhile isHexDig :=
      takeWhile_append_eq_left _ s rest (headSlash_takeWhile_nil _ (by decide) rest hrest)
    have htwDig : (s ++ rest).takeWhile isDigitCh = s.takeWhile isDigitCh :=
      takeWhile_append_eq_left _ s rest (headSlash_takeWhile_nil _ (by decide) rest hrest)
    have hlen : s.length + rest.length ≤ f := by simp at hfuel; omega
    have hrf : rest.length ≤ f := by omega
    have hrf1 : rest.length ≤ f + 1 := by omega
    simp only [templGo, htwHex, htwDig]
    rw [if_pos trivial]
    by_cases hhex : 8 ≤ (s.takeWhile isHexDig).length
    · rw [if_pos hhex]
      have hkle : (s.takeWhile isHexDig).length ≤ s.length :=
        (List.takeWhile_prefix _).length_le
      rw [List.drop_append_of_le_length hkle]
      rw [templGo_emit (s.drop (s.takeWhile isHexDig).length) f rest
        (fun c hc => hs c (List.drop_subset _ s hc))
        (by simp [List.length_drop]; omega)]
      rw [templGo_congr f (f + 1) rest hrf hrf1]
      simp only [templSeg]
      rw [if_pos hhex, List.append_assoc]
    · rw [if_neg hhex]
      by_cases hfull : s.takeWhile isDigitCh = s ∧ s ≠ []
      · obtain ⟨htds, hne⟩ := hfull
        have hlk : lookaheadOk rest = true := by
          rcases hrest with rfl | ⟨t, rfl⟩
          · rfl
          · simp [lookaheadOk]
        have hcond : (decide ((s.takeWhile isDigitCh).length ≠ 0) &&
            lookaheadOk ((s ++ rest).drop (s.takeWhile isDigitCh).length)) = true := by
          rw [htds, List.drop_left]
          simp [hlk, hne]
        rw [if_pos hcond]
        rw [htds, List.drop_left]
        rw [templGo_congr f (f + 1) rest hrf hrf1]
        simp only [templSeg]
        rw [if_neg hhex,
          if_pos (show (!s.isEmpty && decide (s.takeWhile isDigitCh = s)) = true by
            simp [List.isEmpty_iff, hne, htds])]
      · have hcond : (decide ((s.takeWhile isDigitCh).length ≠ 0) &&
            lookaheadOk ((s ++ rest).drop (s.takeWhile isDigitCh).length)) = false := by
          by_cases hd0 : (s.takeWhile isDigitCh).length = 0
          · simp [hd0]
          · have hne : s ≠ [] := by
              intro h
              subst h
              simp at hd0
            have hneq : s.takeWhile isDigitCh ≠ s := fun h => hfull ⟨h, hne⟩
            have hk : (s.takeWhile isDigitCh).length < s.length := by
              have hle := (List.takeWhile_prefix (p := isDigitCh) (l := s)).length_le
              rcases Nat.lt_or_ge (s.takeWhile isDigitCh).length s.length with h | h
              · exact h
              · exact absurd
                  ((List.takeWhile_prefix _).eq_of_length (Nat.le_antisymm hle h)) hneq
            rw [List.drop_append_of_le_length (Nat.le_of_lt hk)]
            rw [List.drop_eq_getElem_cons hk]
            have hmem : s[(s.takeWhile isDigitCh).length] ∈ s := List.getElem_mem hk
            have hlf : lookaheadOk
                ((s[(s.takeWhile isDigitCh).length] ::
                  s.drop ((s.takeWhile isDigitCh).length + 1)) ++ rest) = false :=
              decide_eq_false (hs _ hmem)
            rw [hlf, Bool.and_false]
        rw [if_neg (show ¬ ((decide ((s.takeWhile isDigitCh).length ≠ 0) &&
            lookaheadOk ((s ++ rest).drop (s.takeWhile isDigitCh).length)) = true) by
          rw [hcond]; exact Bool.false_ne_true)]
        rw [templGo_emit s f rest hs (by simp; omega)]
        rw [templGo_congr f (f + 1) rest hrf hrf1]
        simp only [templSeg]
        rw [if_neg hhex,
          if_neg (show ¬ ((!s.isEmpty && decide (s.takeWhile isDigitCh = s)) = true) by
            intro hcontra
            rw [Bool.and_eq_true] at hcontra
            refine hfull ⟨of_decide_eq_true hcontra.2, fun h => ?_⟩
            subst h
            simp at hcontra)]
        rfl

/-- The whole scan of a path built from slash-free segments is the
concatenation of the per-segment contributions. -/
theorem templGo_joinPath : ∀ (segs : List (List Char)) (fuel : Nat),
    (∀ s ∈ segs, ∀ c ∈ s, c ≠ '/') → (joinPath segs).length ≤ fuel →
    templGo fuel (joinPath segs) = (segs.map templSeg).flatten := by
  intro segs
  induction segs with
  | nil => intro fuel _ _; cases fuel <;> rfl
  | cons s ss ih =>
    intro fuel hok hfuel
    have hrest : joinPath ss = [] ∨ ∃ t, joinPath ss = '/' :: t := by
      cases ss with
      | nil => exact Or.inl rfl
      | cons a b => exact Or.inr ⟨a ++ joinPath b, rfl⟩
    have hfuel' : ('/' :: (s ++ joinPath ss)).length ≤ fuel := hfuel
    rw [show joinPath (s :: ss) = '/' :: (s ++ joinPath ss) from rfl]
    rw [templGo_seg s (joinPath ss) fuel (hok s (List.mem_cons_self _ _)) hrest hfuel']
    rw [ih fuel (fun x hx => hok x (List.mem_cons_of_mem _ hx))
      (by simp at hfuel' ⊢; omega)]
    rfl

/-- An id-like segment (purely numeric, or hex of length at least 8)
contributes exactly the `/{id}` placeholder. -/
theorem templSeg_idLike (s : List Char) (h : segIdLike s = true) : templSeg s = idTok := by
  unfold segIdLike at h
  rw [Bool.or_eq_true, Bool.and_eq_true, Bool.and_eq_true] at h
  simp only [templSeg]
  rcases h with ⟨hne, hdig⟩ | ⟨hlen, hhex⟩
  · have hdigAll : ∀ c ∈ s, isDigitCh c = true := List.all_eq_true.mp hdig
    have hhexAll : ∀ c ∈ s, isHexDig c = true :=
      fun c hc => isHexDig_of_isDigitCh c (hdigAll c hc)
    have htw : s.takeWhile isHexDig = s := List.takeWhile_eq_self_iff.mpr hhexAll
    have htwd : s.takeWhile isDigitCh = s := List.takeWhile_eq_self_iff.mpr hdigAll
    by_cases hl : 8 ≤ (s.takeWhile isHexDig).length
    · rw [if_pos hl, htw, List.drop_length, List.append_nil]
    · rw [if_neg hl, if_pos (by rw [htwd, hne]; simp)]
  · have hhexAll : ∀ c ∈ s, isHexDig c = true := List.all_eq_true.mp hhex
    have htw : s.takeWhile isHexDig = s := List.takeWhile_eq_self_iff.mpr hhexAll
    have hl : 8 ≤ (s.takeWhile isHexDig).length := by
      rw [htw]; exact of_decide_eq_true hlen
    rw [if_pos hl, htw, List.drop_length, List.append_nil]

/-- Segment-wise matched paths have equal per-segment contributions. -/
theorem map_templSeg_eq (A B : List (List Char))
    (h : List.Forall₂ segMatches A B) : A.map templSeg = B.map templSeg := by
  induction h with
  | nil => rfl
  | cons hab _ ih =>
    rcases hab with ⟨_, _, heq | ⟨ha, hb⟩⟩
    · rw [List.map_cons, List.map_cons, heq, ih]
    · rw [List.map_cons, List.map_cons, templSeg_idLike _ ha, templSeg_idLike _ hb, ih]

/-- Segment-wise matched paths are slash-free on the left. -/
theorem forall₂_segMatches_left (A B : List (List Char))
    (h : List.Forall₂ segMatches A B) : ∀ s ∈ A, ∀ c ∈ s, c ≠ '/' := by
  induction h with
  | nil => intro s hs; cases hs
  | cons hab _ ih =>
    intro s hs
    rcases List.mem_cons.mp hs with rfl | hs
    · exact hab.1
    · exact ih s hs

/-- Segment-wise matched paths are slash-free on the right. -/
theorem forall₂_segMatches_right (A B : List (List Char))
    (h : List.Forall₂ segMatches A B) : ∀ s ∈ B, ∀ c ∈ s, c ≠ '/' := by
  induction h with
  | nil => intro s hs; cases hs
  | cons hab _ ih =>
    intro s hs
    rcases List.mem_cons.mp hs with rfl | hs
    · exact hab.2.1
    · exact ih s hs

/-- Claim C8: two paths with the same segment count that agree except at
positions where both segments are opaque (purely numeric, or hex of
length at least eight — the segments the replace-regex treats as
identifiers) have identical path templates, each such segment becoming
the `/{id}` placeholder; in particular `/api/users/5f3a2b91` and
`/api/users/42` both template to `/api/users/{id}`. -/
theorem c8_segment_templating (A B : List (List Char))
    (h : List.Forall₂ segMatches A B) :
    parameterizePath (joinPath A).asString = parameterizePath (joinPath B).asString ∧
      parameterizePath "/api/users/5f3a2b91" = "/api/users/\x7bid\x7d" ∧
      parameterizePath "/api/users/42" = "/api/users/\x7bid\x7d" := by
  refine ⟨?_, by decide, by decide⟩
  unfold parameterizePath
  show (templGo ((joinPath A).length + 1) (joinPath A)).asString =
    (templGo ((joinPath B).length + 1) (joinPath B)).asString
  rw [templGo_joinPath A _ (forall₂_segMatches_left A B h) (Nat.le_succ _)]
  rw [templGo_joinPath B _ (forall₂_segMatches_right A B h) (Nat.le_succ _)]
  rw [map_templSeg_eq A B h]

/-- Witness for `c8_segment_templating`: the segment lists of
`/api/users/5f3a2b91` and `/api/users/42`. -/
theorem c8_segment_templating_witness :
    List.Forall₂ segMatches ["api".data, "users".data, "5f3a2b91".data]
        ["api".data, "users".data, "42".data] ∧
      parameterizePath
          (joinPath ["api".data, "users".data, "5f3a2b91".data]).asString =
        parameterizePath (joinPath ["api".data, "users".data, "42".data]).asString :=
  have hf : List.Forall₂ segMatches ["api".data, "users".data, "5f3a2b91".data]
      ["api".data, "users".data, "42".data] :=
    .cons ⟨by decide, by decide, Or.inl rfl⟩
      (.cons ⟨by decide, by decide, Or.inl rfl⟩
        (.cons ⟨by decide, by decide, Or.inr ⟨by decide, by decide⟩⟩ .nil))
  ⟨hf, (c8_segment_templating _ _ hf).1⟩

/-- A call inside the cooldown window does nothing. -/
theorem onUnauthorized_cooldown (hash : String → String) (now : Int)
    (fresh : FreshCreds) (st : AuthManagerState)
    (h : now - st.lastAttempt < 60000) :
    onUnauthorized hash now fresh st = (false, st) := by
  unfold onUnauthorized
  rw [if_pos h]

/-- A call that gets past the cooldown records its time as the new
`lastAttempt`, whether or not the snapshot is replaced. -/
theorem onUnauthorized_lastAttempt (hash : String → String) (now : Int)
    (fresh : FreshCreds) (st : AuthManagerState)
    (h : ¬ (now - st.lastAttempt < 60000)) :
    (onUnauthorized hash now fresh st).2.lastAttempt = now := by
  unfold onUnauthorized
  rw [if_neg h]
  by_cases heq : hash (cookieOf fresh) = st.lastHash <;> simp [heq]

/-- Claim C6: a call inside the 60-second cooldown returns `false`
immediately, independently of whatever fresh credentials the file holds,
without counting as an attempt and without touching the state; hence an
initial attempt followed by two refresh calls inside one cooldown window
performs exactly one credential read (one external login) in total. -/
theorem c6_cooldown_single_attempt (hash : String → String)
    (freshAt : Int → FreshCreds) (fresh fresh' : FreshCreds)
    (st : AuthManagerState) (now t0 t1 t2 : Int) :
    (now - st.lastAttempt < 60000 →
      onUnauthorized hash now fresh st = (false, st) ∧
        onUnauthorized hash now fresh st = onUnauthorized hash now fresh' st ∧
        refreshAttempted st now = false) ∧
      (refreshAttempted st t0 = true → t0 ≤ t1 → t1 ≤ t2 → t2 - t0 < 60000 →
        (runRefreshSeq hash freshAt st [t0, t1, t2]).2 = 1) := by
  constructor
  · intro hcool
    exact ⟨onUnauthorized_cooldown hash now fresh st hcool,
      by rw [onUnauthorized_cooldown hash now fresh st hcool,
        onUnauthorized_cooldown hash now fresh' st hcool],
      by simp [refreshAttempted, hcool]⟩
  · intro hatt h01 h12 h20
    have h0 : ¬ (t0 - st.lastAttempt < 60000) := by
      simpa [refreshAttempted] using hatt
    have hla : (onUnauthorized hash t0 (freshAt t0) st).2.lastAttempt = t0 :=
      onUnauthorized_lastAttempt hash t0 (freshAt t0) st h0
    have hcool1 : t1 - (onUnauthorized hash t0 (freshAt t0) st).2.lastAttempt < 60000 := by
      rw [hla]; omega
    have hcool2 : t2 - (onUnauthorized hash t0 (freshAt t0) st).2.lastAttempt < 60000 := by
      rw [hla]; omega
    have e1 : onUnauthorized hash t1 (freshAt t1) (onUnauthorized hash t0 (freshAt t0) st).2 =
        (false, (onUnauthorized hash t0 (freshAt t0) st).2) :=
      onUnauthorized_cooldown _ _ _ _ hcool1
    have a1 : refreshAttempted (onUnauthorized hash t0 (freshAt t0) st).2 t1 = false := by
      simp [refreshAttempted, hcool1]
    have a2 : refreshAttempted (onUnauthorized hash t0 (freshAt t0) st).2 t2 = false := by
      simp [refreshAttempted, hcool2]
    simp [runRefreshSeq, hatt, e1, a1, a2]

/-- Witness for `c6_cooldown_single_attempt`: last attempt at time 0, a
cooled-down call at time 100 and an attempt at 70000 followed by calls
at 80000 and 90000. -/
theorem c6_cooldown_single_attempt_witness :
    ((100 : Int) - (AuthManagerState.mk 0 "" []).lastAttempt < 60000) ∧
      (onUnauthorized id 100 ⟨[]⟩ ⟨0, "", []⟩ = (false, ⟨0, "", []⟩) ∧
        onUnauthorized id 100 ⟨[]⟩ ⟨0, "", []⟩ =
          onUnauthorized id 100 ⟨[("Cookie", "zz")]⟩ ⟨0, "", []⟩ ∧
        refreshAttempted ⟨0, "", []⟩ 100 = false) ∧
      refreshAttempted ⟨0, "", []⟩ 70000 = true ∧
      (runRefreshSeq id (fun _ => ⟨[]⟩) ⟨0, "", []⟩ [70000, 80000, 90000]).2 = 1 :=
  ⟨by decide,
    (c6_cooldown_single_attempt id (fun _ => ⟨[]⟩) ⟨[]⟩ ⟨[("Cookie", "zz")]⟩
        ⟨0, "", []⟩ 100 70000 80000 90000).1 (by decide),
    by decide,
    (c6_cooldown_single_attempt id (fun _ => ⟨[]⟩) ⟨[]⟩ ⟨[("Cookie", "zz")]⟩
        ⟨0, "", []⟩ 100 70000 80000 90000).2 (by decide) (by decide) (by decide)
      (by decide)⟩

end SunSkills
